import Mathlib

/-!
Shallow embedding of `api/utils/keys/yubikey.go` (package `keys`): the
hardware-backed private-key manager built on the go-piv PIV library.

Modelling conventions:
* Machine integers (`uint32` serial numbers and slot keys) are `Nat`;
  no arithmetic in the source can overflow them.
* Go's `(value, error)` returns are the `Res` type below; `trace.NotFound`,
  `trace.BadParameter` and other (device-level, wrapped) errors are the three
  constructors of `TraceError`.  `trace.Wrap` preserves the error kind, so
  wrapping is the identity on `TraceError`.
* The physical token is explicit state: a `CardState` records, per PIV slot,
  the generated key pair (with a flag for on-device generation, which is what
  attestation proves) and the stored certificate.  The go-piv primitives
  `Certificate`, `GenerateKey`, `SetCertificate`, `Attest`,
  `AttestationCertificate` and `Verify` are modelled as the genuine device
  semantics over that state: a YubiKey attests exactly the keys it generated
  on-device, and attestation output verifies against the device certificate.
* `open` on a card is modelled two ways: the per-card resolved outcome
  `CardState.openErr` (used by the stateful operations), and the retry loop
  `openConnection` over an explicit attempt oracle, faithful to the source's
  100-attempt / retry-message-pattern loop (each sleep is the source's fixed
  100ms delay).
* JSON/PEM byte-level encoding is abstracted by `KeyDataBytes`: marshalling a
  `yubiKeyPrivateKeyData` record always yields well-formed bytes, and
  unmarshalling either recovers the record exactly or fails on malformed input.
-/

namespace Teleport

/-- Error kinds of the `trace` package as used by this file: `notFound` and
`badParameter` are the explicitly constructed kinds; `device` stands for any
other (wrapped) lower-layer error, e.g. from the PIV driver. -/
inductive TraceError where
  | notFound (msg : String)
  | badParameter (msg : String)
  | device (msg : String)
deriving DecidableEq, Repr

/-- Result of a Go `(value, error)` return. -/
inductive Res (α : Type) where
  | ok (val : α)
  | err (e : TraceError)
deriving DecidableEq, Repr

/-- Substring test on character lists, used to model Go's `strings.Contains`. -/
def substrAux (sub : List Char) : List Char → Bool
  | [] => sub.isEmpty
  | c :: rest => sub.isPrefixOf (c :: rest) || substrAux sub rest

/-- Model of Go's `strings.Contains s sub`. -/
def stringContains (s sub : String) : Bool :=
  substrAux sub.toList s.toList

/-- Model of Go's `strings.ToLower`. -/
def toLowerStr (s : String) : String :=
  String.mk (s.toList.map Char.toLower)

/-- PIV slot, as in go-piv: a numeric key and a certificate object address. -/
structure Slot where
  key : Nat
  object : Nat
deriving DecidableEq, Repr

/-- go-piv `piv.SlotAuthentication` (9a). -/
def SlotAuthentication : Slot := ⟨0x9a, 0x5fc105⟩

/-- go-piv `piv.SlotSignature` (9c). -/
def SlotSignature : Slot := ⟨0x9c, 0x5fc10a⟩

/-- go-piv `piv.SlotCardAuthentication` (9e). -/
def SlotCardAuthentication : Slot := ⟨0x9e, 0x5fc101⟩

/-- go-piv `piv.SlotKeyManagement` (9d). -/
def SlotKeyManagement : Slot := ⟨0x9d, 0x5fc10b⟩

/-- go-piv `piv.RetiredKeyManagementSlot`: the twenty retired slots with keys
0x82 through 0x95 and object addresses 0x5fc10d through 0x5fc120. -/
def RetiredKeyManagementSlot (key : Nat) : Option Slot :=
  if 0x82 ≤ key ∧ key ≤ 0x95 then some ⟨key, 0x5fc10d + (key - 0x82)⟩ else none

/-- go-piv touch policies used by this file. -/
inductive TouchPolicy where
  | never
  | cached
deriving DecidableEq, Repr

/-- Public key as seen by the Go code: EC keys (all keys this file generates,
`piv.AlgorithmEC256`) implement the `Equal` comparison interface; other
dynamic types do not and trip the type assertion in `getPrivateKey`. -/
inductive CryptoPub where
  | ec (id : Nat)
  | unsupported (tag : String)
deriving DecidableEq, Repr

/-- Whether the dynamic type of a public key satisfies
`interface { Equal(x crypto.PublicKey) bool }`. -/
def supportsEqual : CryptoPub → Bool
  | .ec _ => true
  | .unsupported _ => false

/-- The fields of an x509 certificate this file reads: subject organization,
subject organizational unit, embedded public key, and (device model) whether
the certificate was produced by the token's attestation facility. -/
structure Cert where
  org : List String
  orgUnit : List String
  pub : CryptoPub
  fromDevice : Bool
deriving DecidableEq, Repr

/-- A key pair held in a PIV slot: its public key, the touch policy it was
generated under, and whether it was generated on-device (attestable). -/
structure GenKey where
  pub : CryptoPub
  touch : TouchPolicy
  onDevice : Bool
deriving DecidableEq, Repr

/-- Contents of one PIV slot: at most one key pair and one stored certificate. -/
structure SlotState where
  key : Option GenKey
  cert : Option Cert
deriving DecidableEq, Repr

/-- State of one physical card: reader name, serial number, the resolved
outcome of opening a connection to it (`none` = opens successfully), the
per-slot-key contents, and its device attestation (root) certificate. -/
structure CardState where
  name : String
  serial : Nat
  openErr : Option String
  slots : Nat → SlotState
  deviceCert : Cert

/-- State of the environment: the connected cards, in enumeration order as
returned by `piv.Cards()`. -/
structure World where
  cards : List CardState

/-- The `yubiKey` struct of the source: reader name and serial number. -/
structure YubiKeyRef where
  card : String
  serialNumber : Nat
deriving DecidableEq, Repr

/-- The `YubiKeyPrivateKey` struct of the source: embedded `yubiKey`
reference, PIV slot, and public key. -/
structure YubiKeyPrivateKey where
  yubiKey : YubiKeyRef
  pivSlot : Slot
  pub : CryptoPub
deriving DecidableEq, Repr

/-- The `yubiKeyPrivateKeyData` record: the JSON-marshalable descriptor with
fields `serial_number` and `slot_key` (both `uint32`). -/
structure yubiKeyPrivateKeyData where
  serialNumber : Nat
  slotKey : Nat
deriving DecidableEq, Repr

/-- JSON bytes for a `yubiKeyPrivateKeyData` record: either the well-formed
encoding of a record, or malformed input. -/
inductive KeyDataBytes where
  | wellFormed (data : yubiKeyPrivateKeyData)
  | malformed (raw : String)
deriving DecidableEq, Repr

/-- Model of `json.Marshal` on a `yubiKeyPrivateKeyData` record (never fails). -/
def jsonMarshal (d : yubiKeyPrivateKeyData) : KeyDataBytes :=
  .wellFormed d

/-- Model of `json.Unmarshal` into a `yubiKeyPrivateKeyData` record. -/
def jsonUnmarshal : KeyDataBytes → Res yubiKeyPrivateKeyData
  | .wellFormed d => .ok d
  | .malformed raw => .err (.device ("invalid JSON input: " ++ raw))

/-- PEM block: type label and payload bytes. -/
structure PEMBlock where
  type : String
  bytes : KeyDataBytes
deriving DecidableEq, Repr

/-- Modelled from the spec: the PEM type label identifying a hardware-key
descriptor (`pivYubiKeyPrivateKeyType` is referenced by `keyPEM` but defined
in a repository file outside the shown source). Its exact value does not
affect any claim. -/
def pivYubiKeyPrivateKeyType : String := "PIV YUBIKEY PRIVATE KEY"

/-- Modelled from the spec: the issuing software's version (`api.Version`,
defined outside the shown source) recorded in the marker certificate's
organizational-unit field. Its exact value does not affect any claim. -/
def apiVersion : String := "api.Version"

/-- Source constant `certOrgName`: marks Teleport Client self-signed
certificates stored in yubiKey PIV slots. -/
def certOrgName : String := "teleport"

/-- Source constant `PIVCardTypeYubiKey`. -/
def PIVCardTypeYubiKey : String := "yubikey"

/-- Source `selfSignedTeleportClientCertificate`: builds the marker
certificate over the given public key, with organization `certOrgName` and
organizational unit `api.Version`. The random 128-bit serial number is not
observed by any operation in this file and is abstracted away. The
certificate is created by the client, not by the token's attestation
facility, hence `fromDevice := false`. -/
def selfSignedTeleportClientCertificate (pub : CryptoPub) : Cert :=
  { org := [certOrgName], orgUnit := [apiVersion], pub := pub, fromDevice := false }

/-- Device model of go-piv `yk.Certificate(slot)`: the stored certificate of
the slot, if any. -/
def ykCertificate (y : CardState) (slot : Slot) : Option Cert :=
  (y.slots slot.key).cert

/-- Device model of go-piv `yk.Attest(slot)`: a genuine token produces a slot
attestation certificate exactly for keys it generated on-device; imported
keys and empty slots fail. -/
def ykAttest (y : CardState) (slot : Slot) : Res Cert :=
  match (y.slots slot.key).key with
  | none => .err (.device "attestation failed: no key generated in slot")
  | some k =>
    if k.onDevice then .ok { org := [], orgUnit := [], pub := k.pub, fromDevice := true }
    else .err (.device "attestation failed: key was imported")

/-- Device model of go-piv `yk.AttestationCertificate()`. -/
def ykAttestationCertificate (y : CardState) : Res Cert :=
  .ok y.deviceCert

/-- Device model of go-piv `piv.Verify(attestationCert, slotCert)`: the
chain validates exactly for certificates produced by the token's attestation
facility. -/
def pivVerify (_attestationCert slotCert : Cert) : Res Unit :=
  if slotCert.fromDevice then .ok () else .err (.device "piv verification failed")

/-- Source `newYubiKey`: opens the card and reads its serial number. In the
model, opening resolves to the card's `openErr` outcome and the serial read
always succeeds. -/
def newYubiKey (card : CardState) : Res CardState :=
  match card.openErr with
  | some msg => .err (.device msg)
  | none => .ok card

/-- Source `findYubiKeyCards`: filters connected card names whose lowercase
form contains `PIVCardTypeYubiKey`. (`piv.Cards()` itself is modelled as
never failing; no claim depends on an enumeration failure.) -/
def findYubiKeyCards (w : World) : List CardState :=
  w.cards.filter (fun card => stringContains (toLowerStr card.name) PIVCardTypeYubiKey)

/-- Loop body of source `findYubiKey`: walk the enumerated cards; serial
number 0 matches any card, otherwise the card's serial must equal the
requested one. -/
def findYubiKeyFrom : List CardState → Nat → Res CardState
  | [], serialNumber =>
    .err (.notFound ("no yubiKey device found with serial number " ++ toString serialNumber))
  | card :: rest, serialNumber =>
    match newYubiKey card with
    | .err e => .err e
    | .ok y =>
      if serialNumber = 0 ∨ y.serial = serialNumber then .ok y
      else findYubiKeyFrom rest serialNumber

/-- Source `findYubiKey`: finds a yubiKey PIV card by serial number; serial
number 0 selects the first yubiKey found. -/
def findYubiKey (w : World) (serialNumber : Nat) : Res CardState :=
  let yubiKeyCards := findYubiKeyCards w
  if yubiKeyCards.length = 0 then .err (.notFound "no yubiKey devices found")
  else findYubiKeyFrom yubiKeyCards serialNumber

/-- Source `getPrivateKey`: checks the slot's stored certificate for the
Teleport marker, attests the slot key, validates the attestation chain, and
compares the stored certificate's public key with the attested one. -/
def getPrivateKey (y : CardState) (slot : Slot) : Res YubiKeyPrivateKey :=
  match y.openErr with
  | some msg => .err (.device msg)
  | none =>
    match ykCertificate y slot with
    | none => .err (.notFound "YubiKey certificate slot is empty, expected a Teleport Client cert")
    | some cert =>
      if cert.org.length = 0 ∨ cert.org.head? ≠ some certOrgName then
        .err (.notFound "YubiKey certificate slot contained unknown certificate")
      else
        match ykAttest y slot with
        | .err e => .err e
        | .ok slotCert =>
          match ykAttestationCertificate y with
          | .err e => .err e
          | .ok attestationCert =>
            match pivVerify attestationCert slotCert with
            | .err e => .err e
            | .ok _ =>
              if ¬ supportsEqual cert.pub then
                .err (.badParameter "certificate's public key is not a supported public key")
              else if cert.pub ≠ slotCert.pub then
                .err (.notFound "YubiKey slot contains mismatched certificates and must be regenerated")
              else
                .ok ⟨⟨y.name, y.serial⟩, slot, slotCert.pub⟩

/-- Source `generatePrivateKey`: generates a fresh EC256 key pair on-device
in the slot (`yk.GenerateKey`), then stores the self-signed marker
certificate over it (`yk.SetCertificate`). `freshId` stands for the token's
key-generation randomness; the generated public key is `CryptoPub.ec freshId`.
Returns the mutated card state together with the new handle. -/
def generatePrivateKey (y : CardState) (slot : Slot) (touchPolicy : TouchPolicy)
    (freshId : Nat) : Res (CardState × YubiKeyPrivateKey) :=
  match y.openErr with
  | some msg => .err (.device msg)
  | none =>
    let pub : CryptoPub := .ec freshId
    let y1 : CardState :=
      { y with slots := fun k =>
          if k = slot.key then { key := some ⟨pub, touchPolicy, true⟩, cert := (y.slots k).cert }
          else y.slots k }
    let cert := selfSignedTeleportClientCertificate pub
    let y2 : CardState :=
      { y1 with slots := fun k =>
          if k = slot.key then { key := (y1.slots k).key, cert := some cert }
          else y1.slots k }
    .ok (y2, ⟨⟨y.name, y.serial⟩, slot, pub⟩)

/-- Slot and touch-policy selection inlined in source
`GetOrGenerateYubiKeyPrivateKey` (lines 59–67): slot 9a with touch policy
never when touch is not required, slot 9c with touch policy cached when it
is. -/
def resolveByTouchRequirement (touchRequired : Bool) : Slot × TouchPolicy :=
  if touchRequired then (SlotSignature, TouchPolicy.cached)
  else (SlotAuthentication, TouchPolicy.never)

/-- Replace the card with the given reader name in the world: the physical
mutation performed by a successful generation. -/
def updateCard (w : World) (c : CardState) : World :=
  ⟨w.cards.map (fun x => if x.name = c.name then c else x)⟩

/-- Outcome of one `GetOrGenerateYubiKeyPrivateKey` call: the resulting world
state, the returned handle or error, and how many `yk.GenerateKey` and
`yk.SetCertificate` calls were performed. -/
structure ProvisionResult where
  world : World
  result : Res YubiKeyPrivateKey
  generateKeyCalls : Nat
  setCertificateCalls : Nat

/-- Source `GetOrGenerateYubiKeyPrivateKey`: find the first yubiKey
(`findYubiKey 0`), resolve slot and touch policy, try `getPrivateKey`, and on
any error from it fall through to `generatePrivateKey`. The final `keyPEM` /
`NewPrivateKey` wrapping never fails in the model, so the handle is returned
directly. -/
def GetOrGenerateYubiKeyPrivateKey (w : World) (touchRequired : Bool)
    (freshId : Nat) : ProvisionResult :=
  match findYubiKey w 0 with
  | .err e => ⟨w, .err e, 0, 0⟩
  | .ok y =>
    match getPrivateKey y (resolveByTouchRequirement touchRequired).1 with
    | .ok priv => ⟨w, .ok priv, 0, 0⟩
    | .err _ =>
      match generatePrivateKey y (resolveByTouchRequirement touchRequired).1
          (resolveByTouchRequirement touchRequired).2 freshId with
      | .err e => ⟨w, .err e, 0, 0⟩
      | .ok (y2, priv) => ⟨updateCard w y2, .ok priv, 1, 1⟩

/-- Source `parsePIVSlot`: map a numeric slot key to the matching named slot,
falling back to the retired-slot range, and fail with `BadParameter`
otherwise. -/
def parsePIVSlot (slotKey : Nat) : Res Slot :=
  if slotKey = SlotAuthentication.key then .ok SlotAuthentication
  else if slotKey = SlotSignature.key then .ok SlotSignature
  else if slotKey = SlotCardAuthentication.key then .ok SlotCardAuthentication
  else if slotKey = SlotKeyManagement.key then .ok SlotKeyManagement
  else
    match RetiredKeyManagementSlot slotKey with
    | some retiredSlot => .ok retiredSlot
    | none => .err (.badParameter ("slot " ++ toString slotKey ++ " does not exist"))

/-- Source `keyPEM`: marshal the (serial number, slot key) descriptor and
armor it in a PEM block with the hardware-key type label. -/
def keyPEM (y : YubiKeyPrivateKey) : PEMBlock :=
  { type := pivYubiKeyPrivateKeyType,
    bytes := jsonMarshal { serialNumber := y.yubiKey.serialNumber, slotKey := y.pivSlot.key } }

/-- Source `parseYubiKeyPrivateKeyData`: unmarshal the descriptor, validate
the slot key, locate the card by serial number, and verify the slot via
`getPrivateKey`. -/
def parseYubiKeyPrivateKeyData (w : World) (keyDataBytes : KeyDataBytes) :
    Res YubiKeyPrivateKey :=
  match jsonUnmarshal keyDataBytes with
  | .err e => .err e
  | .ok keyData =>
    match parsePIVSlot keyData.slotKey with
    | .err e => .err e
    | .ok pivSlot =>
      match findYubiKey w keyData.serialNumber with
      | .err e => .err e
      | .ok y => getPrivateKey y pivSlot

/-- Source constant: the retry-detection message pattern of `open`. -/
def retryErrorText : String :=
  "connecting to smart card: the smart card cannot be accessed because of other connections outstanding"

/-- Source `isRetryError` (closure inside `open`): whether an open failure's
message contains the exclusively-held pattern. -/
def isRetryError (msg : String) : Bool :=
  stringContains msg retryErrorText

/-- Source constant `maxRetries` of `open`. -/
def maxRetries : Nat := 100

/-- Source constant: the fixed delay slept between retried open attempts,
in milliseconds (`time.Millisecond * 100`). -/
def retryDelayMilliseconds : Nat := 100

/-- Observable outcome of the `open` retry loop: result, number of
`piv.Open` attempts made, and number of sleeps (each of
`retryDelayMilliseconds`) performed. -/
structure OpenOutcome where
  result : Res Unit
  attemptsMade : Nat
  sleeps : Nat
deriving DecidableEq, Repr

/-- Loop of source `open`, over an oracle giving each `piv.Open` attempt's
outcome (`none` = success, `some msg` = failure with that message). `i` is
the current iteration index and `rem` the number of further iterations the
`for` loop still allows after this one. On a retryable failure in the last
allowed iteration the loop sleeps, exits, and returns that last error, as in
the source. -/
def openConnectionAux (attempts : Nat → Option String) : Nat → Nat → OpenOutcome
  | i, rem =>
    match attempts i with
    | none => ⟨.ok (), 1, 0⟩
    | some msg =>
      if isRetryError msg then
        match rem with
        | 0 => ⟨.err (.device msg), 1, 1⟩
        | rem' + 1 =>
          let o := openConnectionAux attempts (i + 1) rem'
          ⟨o.result, o.attemptsMade + 1, o.sleeps + 1⟩
      else ⟨.err (.device msg), 1, 0⟩

/-- Source `open`: up to `maxRetries` attempts starting at attempt 0. -/
def openConnection (attempts : Nat → Option String) : OpenOutcome :=
  openConnectionAux attempts 0 (maxRetries - 1)

/-- The fixed enumeration of PIV slots recognized by `parsePIVSlot`: the four
named slots plus the twenty retired key-management slots. -/
def pivSlots : List Slot :=
  [SlotAuthentication, SlotSignature, SlotCardAuthentication, SlotKeyManagement] ++
    (List.range 20).map (fun i => ⟨0x82 + i, 0x5fc10d + i⟩)

/-! ### Concrete fixtures used by witnesses and counterexamples -/

/-- Slot map with every slot empty. -/
def emptySlots : Nat → SlotState := fun _ => ⟨none, none⟩

/-- Device attestation (root) certificate of the example cards. -/
def exampleDeviceCert : Cert := ⟨[], [], .ec 1000, true⟩

/-- Connected card with all slots empty. -/
def cardEmpty : CardState := ⟨"yubikey", 111, none, emptySlots, exampleDeviceCert⟩

/-- Certificate stored by some third party: organization is not the marker. -/
def foreignCert : Cert := ⟨["acme"], [], .ec 5, false⟩

/-- Card whose 9a slot holds a third-party certificate over an on-device key. -/
def cardForeign : CardState :=
  ⟨"yubikey", 111, none,
    fun k => if k = 0x9a then ⟨some ⟨.ec 5, .never, true⟩, some foreignCert⟩ else ⟨none, none⟩,
    exampleDeviceCert⟩

/-- Marker certificate claiming public key `ec 5`. -/
def markedCert5 : Cert := ⟨[certOrgName], [], .ec 5, false⟩

/-- Card whose 9a slot holds a marker certificate but an imported key: the
reuse check fails at attestation with a device error, not `NotFound`. -/
def cardImported : CardState :=
  ⟨"yubikey", 111, none,
    fun k => if k = 0x9a then ⟨some ⟨.ec 5, .never, false⟩, some markedCert5⟩ else ⟨none, none⟩,
    exampleDeviceCert⟩

/-- Card whose 9a slot holds a marker certificate for `ec 5` but an on-device
key `ec 6`: the reuse check fails at the public-key comparison. -/
def cardMismatch : CardState :=
  ⟨"yubikey", 111, none,
    fun k => if k = 0x9a then ⟨some ⟨.ec 6, .never, true⟩, some markedCert5⟩ else ⟨none, none⟩,
    exampleDeviceCert⟩

/-- Card correctly provisioned in slot 9a with public key `ec pubId`. -/
def goodCard (nm : String) (sn pubId : Nat) : CardState :=
  ⟨nm, sn, none,
    fun k =>
      if k = 0x9a then
        ⟨some ⟨.ec pubId, .never, true⟩, some (selfSignedTeleportClientCertificate (.ec pubId))⟩
      else ⟨none, none⟩,
    exampleDeviceCert⟩

/-- World with a single card holding an imported key under a marker cert. -/
def worldImported : World := ⟨[cardImported]⟩

/-- World with a single card holding a third-party certificate. -/
def worldForeign : World := ⟨[cardForeign]⟩

/-- World with two provisioned cards of distinct serial numbers. -/
def worldTwo : World := ⟨[goodCard "yubikey" 111 7, goodCard "yubikey b" 222 8]⟩

/-! ### Helper lemmas -/

/-- Helper: `parsePIVSlot` fails with `BadParameter` on any key outside the
fixed slot enumeration. -/
theorem parsePIVSlot_invalid (k : Nat) (h : ∀ s ∈ pivSlots, s.key ≠ k) :
    parsePIVSlot k = .err (.badParameter ("slot " ++ toString k ++ " does not exist")) := by
  have h9a := h SlotAuthentication (by decide)
  have h9c := h SlotSignature (by decide)
  have h9e := h SlotCardAuthentication (by decide)
  have h9d := h SlotKeyManagement (by decide)
  have hret : ¬(0x82 ≤ k ∧ k ≤ 0x95) := by
    rintro ⟨h1, h2⟩
    refine h ⟨k, 0x5fc10d + (k - 0x82)⟩ ?_ rfl
    unfold pivSlots
    refine List.mem_append_right _ (List.mem_map.mpr ⟨k - 0x82, List.mem_range.mpr (by omega), ?_⟩)
    have : 0x82 + (k - 0x82) = k := by omega
    rw [this]
  unfold parsePIVSlot RetiredKeyManagementSlot
  rw [if_neg (Ne.symm h9a), if_neg (Ne.symm h9c), if_neg (Ne.symm h9e), if_neg (Ne.symm h9d),
    if_neg hret]

/-- Helper: when the yubiKey card filter yields a first card that opens
successfully, `findYubiKey` with serial number 0 returns that card. -/
theorem findYubiKey_first (w : World) (c : CardState) (rest : List CardState)
    (hcards : findYubiKeyCards w = c :: rest) (hopen : c.openErr = none) :
    findYubiKey w 0 = .ok c := by
  unfold findYubiKey
  rw [hcards]
  simp [findYubiKeyFrom, newYubiKey, hopen]

/-- Helper: a card located through `findYubiKeyFrom` with a nonzero serial
number carries exactly that serial number. -/
theorem findYubiKeyFrom_serial (cards : List CardState) (s : Nat) (y : CardState)
    (hs : s ≠ 0) (hfind : findYubiKeyFrom cards s = .ok y) : y.serial = s := by
  induction cards with
  | nil => simp [findYubiKeyFrom] at hfind
  | cons c rest ih =>
    unfold findYubiKeyFrom newYubiKey at hfind
    cases hc : c.openErr with
    | some msg => rw [hc] at hfind; simp at hfind
    | none =>
      rw [hc] at hfind
      simp only at hfind
      by_cases hcond : s = 0 ∨ c.serial = s
      · rw [if_pos hcond] at hfind
        cases hfind
        rcases hcond with h0 | hser
        · exact absurd h0 hs
        · exact hser
      · rw [if_neg hcond] at hfind
        exact ih hfind

/-- Helper: a card located through `findYubiKey` with a nonzero serial number
carries exactly that serial number. -/
theorem findYubiKey_serial (w : World) (s : Nat) (y : CardState)
    (hs : s ≠ 0) (hfind : findYubiKey w s = .ok y) : y.serial = s := by
  unfold findYubiKey at hfind
  by_cases hlen : (findYubiKeyCards w).length = 0
  · rw [if_pos hlen] at hfind; simp at hfind
  · rw [if_neg hlen] at hfind
    exact findYubiKeyFrom_serial _ s y hs hfind

/-- Helper: any handle returned by `getPrivateKey` references the queried
card and slot. -/
theorem getPrivateKey_ok_shape (y : CardState) (slot : Slot) (r : YubiKeyPrivateKey)
    (h : getPrivateKey y slot = .ok r) :
    r.yubiKey = ⟨y.name, y.serial⟩ ∧ r.pivSlot = slot := by
  unfold getPrivateKey at h
  cases hopen : y.openErr with
  | some msg => simp [hopen] at h
  | none =>
    simp only [hopen] at h
    cases hcert : ykCertificate y slot with
    | none => simp [hcert] at h
    | some cert =>
      simp only [hcert] at h
      by_cases horg : cert.org.length = 0 ∨ cert.org.head? ≠ some certOrgName
      · rw [if_pos horg] at h; simp at h
      · rw [if_neg horg] at h
        cases hatt : ykAttest y slot with
        | err e => simp [hatt] at h
        | ok slotCert =>
          simp only [hatt, ykAttestationCertificate] at h
          cases hver : pivVerify y.deviceCert slotCert with
          | err e => simp [hver] at h
          | ok u =>
            simp only [hver] at h
            by_cases hsup : supportsEqual cert.pub = true
            · rw [if_neg (not_not_intro hsup)] at h
              by_cases hne : cert.pub = slotCert.pub
              · rw [if_neg (not_not_intro hne)] at h
                injection h with h'
                exact ⟨congrArg YubiKeyPrivateKey.yubiKey h'.symm,
                  congrArg YubiKeyPrivateKey.pivSlot h'.symm⟩
              · rw [if_pos hne] at h; simp at h
            · rw [if_pos hsup] at h; simp at h

/-- Helper: any slot returned by `parsePIVSlot` carries the queried key. -/
theorem parsePIVSlot_key (k : Nat) (s : Slot) (h : parsePIVSlot k = .ok s) : s.key = k := by
  unfold parsePIVSlot at h
  by_cases h1 : k = SlotAuthentication.key
  · rw [if_pos h1] at h
    injection h with h'
    rw [← h', h1]
  · rw [if_neg h1] at h
    by_cases h2 : k = SlotSignature.key
    · rw [if_pos h2] at h
      injection h with h'
      rw [← h', h2]
    · rw [if_neg h2] at h
      by_cases h3 : k = SlotCardAuthentication.key
      · rw [if_pos h3] at h
        injection h with h'
        rw [← h', h3]
      · rw [if_neg h3] at h
        by_cases h4 : k = SlotKeyManagement.key
        · rw [if_pos h4] at h
          injection h with h'
          rw [← h', h4]
        · rw [if_neg h4] at h
          unfold RetiredKeyManagementSlot at h
          by_cases h5 : 0x82 ≤ k ∧ k ≤ 0x95
          · rw [if_pos h5] at h
            injection h with h'
            rw [← h']
          · rw [if_neg h5] at h
            exact absurd h (by simp)

/-! ### Claims -/

/-- C9: the inline slot/touch-policy resolution of
`GetOrGenerateYubiKeyPrivateKey` is a pure total mapping: touch not required
yields slot 9a (authentication) with touch policy never; touch required
yields slot 9c (signature) with touch policy cached-on-touch. -/
theorem resolveByTouchRequirement_total_mapping :
    resolveByTouchRequirement false = (SlotAuthentication, TouchPolicy.never) ∧
    resolveByTouchRequirement true = (SlotSignature, TouchPolicy.cached) ∧
    SlotAuthentication.key = 0x9a ∧ SlotSignature.key = 0x9c := by
  decide

/-- C6: `parsePIVSlot` round-trips every slot in the fixed enumeration (the
four named slots plus the twenty retired slots): `parsePIVSlot slot.key`
returns that very slot; and every numeric key outside the enumeration fails
with a `BadParameter` error, never silently defaulting. -/
theorem parsePIVSlot_roundtrip (k : Nat) (h : ∀ s ∈ pivSlots, s.key ≠ k) :
    (∀ s ∈ pivSlots, parsePIVSlot s.key = .ok s) ∧
    parsePIVSlot k = .err (.badParameter ("slot " ++ toString k ++ " does not exist")) :=
  ⟨by decide, parsePIVSlot_invalid k h⟩

/-- Witness for C6 at the out-of-range key 0x40. -/
theorem parsePIVSlot_roundtrip_witness :
    (∀ s ∈ pivSlots, parsePIVSlot s.key = .ok s) ∧
    parsePIVSlot 0x40 = .err (.badParameter ("slot " ++ toString (0x40 : Nat) ++ " does not exist")) :=
  parsePIVSlot_roundtrip 0x40 (by decide)

/-- C1 counterexample: on a card whose 9a slot fails the reuse check with a
device-kind (attestation) error — not `NotFound` — the provisioner does not
propagate the error: it generates a new key and writes the slot anyway
(one `GenerateKey` and one `SetCertificate` call) and returns successfully. -/
theorem getOrGenerate_regenerates_on_fatal_error_cex :
    getPrivateKey cardImported SlotAuthentication =
      .err (.device "attestation failed: key was imported") ∧
    (GetOrGenerateYubiKeyPrivateKey worldImported false 7).result =
      .ok ⟨⟨"yubikey", 111⟩, SlotAuthentication, .ec 7⟩ ∧
    (GetOrGenerateYubiKeyPrivateKey worldImported false 7).generateKeyCalls = 1 ∧
    (GetOrGenerateYubiKeyPrivateKey worldImported false 7).setCertificateCalls = 1 := by
  exact ⟨rfl, rfl, rfl, rfl⟩

/-- C1 amended: whenever the reuse check (`getPrivateKey`) fails — with any
error kind, `NotFound` or not — `GetOrGenerateYubiKeyPrivateKey` does not
propagate that error; it always falls through to generation, performing one
`GenerateKey` and one `SetCertificate` call on the slot. -/
theorem getOrGenerate_generates_on_any_reuse_failure
    (w : World) (c : CardState) (rest : List CardState) (t : Bool) (freshId : Nat)
    (e : TraceError)
    (hcards : findYubiKeyCards w = c :: rest)
    (hopen : c.openErr = none)
    (hget : getPrivateKey c (resolveByTouchRequirement t).1 = .err e) :
    ∃ y2, generatePrivateKey c (resolveByTouchRequirement t).1
        (resolveByTouchRequirement t).2 freshId =
        .ok (y2, ⟨⟨c.name, c.serial⟩, (resolveByTouchRequirement t).1, .ec freshId⟩) ∧
      GetOrGenerateYubiKeyPrivateKey w t freshId =
        ⟨updateCard w y2, .ok ⟨⟨c.name, c.serial⟩, (resolveByTouchRequirement t).1, .ec freshId⟩,
          1, 1⟩ := by
  have hfind := findYubiKey_first w c rest hcards hopen
  unfold generatePrivateKey
  rw [hopen]
  refine ⟨_, rfl, ?_⟩
  unfold GetOrGenerateYubiKeyPrivateKey
  simp only [hfind, hget]
  unfold generatePrivateKey
  simp only [hopen]

/-- Witness for C1 amended, at the imported-key card. -/
theorem getOrGenerate_generates_on_any_reuse_failure_witness :
    ∃ y2, generatePrivateKey cardImported (resolveByTouchRequirement false).1
        (resolveByTouchRequirement false).2 7 =
        .ok (y2, ⟨⟨"yubikey", 111⟩, (resolveByTouchRequirement false).1, .ec 7⟩) ∧
      GetOrGenerateYubiKeyPrivateKey worldImported false 7 =
        ⟨updateCard worldImported y2,
          .ok ⟨⟨"yubikey", 111⟩, (resolveByTouchRequirement false).1, .ec 7⟩, 1, 1⟩ :=
  getOrGenerate_generates_on_any_reuse_failure worldImported cardImported [] false 7
    (.device "attestation failed: key was imported") rfl rfl rfl

/-- C2 counterexample: a provisioning request against a slot holding a
certificate whose organization is not the marker constant does not fail and
does not leave the slot unchanged: the reuse check reports `NotFound`, after
which the provisioner generates a new key and overwrites both the slot's key
and its certificate, returning successfully. -/
theorem foreignSlot_overwritten_cex :
    getPrivateKey cardForeign SlotAuthentication =
      .err (.notFound "YubiKey certificate slot contained unknown certificate") ∧
    cardForeign.slots 0x9a = ⟨some ⟨.ec 5, .never, true⟩, some foreignCert⟩ ∧
    (GetOrGenerateYubiKeyPrivateKey worldForeign false 9).result =
      .ok ⟨⟨"yubikey", 111⟩, SlotAuthentication, .ec 9⟩ ∧
    (GetOrGenerateYubiKeyPrivateKey worldForeign false 9).generateKeyCalls = 1 ∧
    (GetOrGenerateYubiKeyPrivateKey worldForeign false 9).setCertificateCalls = 1 ∧
    ((GetOrGenerateYubiKeyPrivateKey worldForeign false 9).world.cards.map
        (fun c => c.slots 0x9a)) =
      [⟨some ⟨.ec 9, .never, true⟩, some (selfSignedTeleportClientCertificate (.ec 9))⟩] := by
  exact ⟨rfl, rfl, rfl, rfl, rfl, rfl⟩

/-- C2 amended: a slot holding a certificate whose organization is empty or
differs from the marker constant is never reused — the reuse check fails with
`NotFound` — but the provisioning request does not fail: it generates a new
key over the slot, overwriting the slot's key and certificate, and returns
the new handle. -/
theorem foreignSlot_never_reused_but_overwritten
    (w : World) (c : CardState) (rest : List CardState) (cert : Cert) (t : Bool)
    (freshId : Nat)
    (hcards : findYubiKeyCards w = c :: rest)
    (hopen : c.openErr = none)
    (hcert : (c.slots (resolveByTouchRequirement t).1.key).cert = some cert)
    (horg : cert.org.length = 0 ∨ cert.org.head? ≠ some certOrgName) :
    getPrivateKey c (resolveByTouchRequirement t).1 =
      .err (.notFound "YubiKey certificate slot contained unknown certificate") ∧
    ∃ y2, GetOrGenerateYubiKeyPrivateKey w t freshId =
        ⟨updateCard w y2, .ok ⟨⟨c.name, c.serial⟩, (resolveByTouchRequirement t).1, .ec freshId⟩,
          1, 1⟩ ∧
      y2.slots (resolveByTouchRequirement t).1.key =
        ⟨some ⟨.ec freshId, (resolveByTouchRequirement t).2, true⟩,
          some (selfSignedTeleportClientCertificate (.ec freshId))⟩ := by
  have hfind := findYubiKey_first w c rest hcards hopen
  have hget : getPrivateKey c (resolveByTouchRequirement t).1 =
      .err (.notFound "YubiKey certificate slot contained unknown certificate") := by
    unfold getPrivateKey ykCertificate
    simp only [hopen, hcert]
    rw [if_pos horg]
  refine ⟨hget, ?_⟩
  unfold GetOrGenerateYubiKeyPrivateKey
  simp only [hfind, hget]
  unfold generatePrivateKey
  simp only [hopen]
  refine ⟨_, rfl, ?_⟩
  simp

/-- Witness for C2 amended, at the third-party-certificate card. -/
theorem foreignSlot_never_reused_but_overwritten_witness :
    getPrivateKey cardForeign (resolveByTouchRequirement false).1 =
      .err (.notFound "YubiKey certificate slot contained unknown certificate") ∧
    ∃ y2, GetOrGenerateYubiKeyPrivateKey worldForeign false 9 =
        ⟨updateCard worldForeign y2,
          .ok ⟨⟨"yubikey", 111⟩, (resolveByTouchRequirement false).1, .ec 9⟩, 1, 1⟩ ∧
      y2.slots (resolveByTouchRequirement false).1.key =
        ⟨some ⟨.ec 9, (resolveByTouchRequirement false).2, true⟩,
          some (selfSignedTeleportClientCertificate (.ec 9))⟩ :=
  foreignSlot_never_reused_but_overwritten worldForeign cardForeign [] foreignCert false 9
    rfl rfl rfl (by decide)

/-- C3 counterexample: when the stored certificate's public key differs from
the slot attestation's public key, `getPrivateKey` fails with a `NotFound`
error — the very same error kind produced for an empty slot — not with a
distinct fatal tampered/mismatch kind. -/
theorem mismatch_same_kind_as_empty_cex :
    getPrivateKey cardMismatch SlotAuthentication =
      .err (.notFound "YubiKey slot contains mismatched certificates and must be regenerated") ∧
    getPrivateKey cardEmpty SlotAuthentication =
      .err (.notFound "YubiKey certificate slot is empty, expected a Teleport Client cert") := by
  exact ⟨rfl, rfl⟩

/-- C3 amended: a public-key mismatch between the stored certificate and the
slot attestation makes `getPrivateKey` fail with a `NotFound` error whose
message says the slot must be regenerated — the same non-fatal kind used for
an empty or unmarked slot, so the provisioner treats the slot as free to
regenerate rather than as a distinct fatal condition. -/
theorem mismatch_fails_with_notFound
    (c : CardState) (cert : Cert) (k : GenKey) (slot : Slot)
    (hopen : c.openErr = none)
    (hcert : (c.slots slot.key).cert = some cert)
    (horg : cert.org.head? = some certOrgName)
    (hkey : (c.slots slot.key).key = some k)
    (hdev : k.onDevice = true)
    (hsup : supportsEqual cert.pub = true)
    (hne : cert.pub ≠ k.pub) :
    getPrivateKey c slot =
      .err (.notFound "YubiKey slot contains mismatched certificates and must be regenerated") := by
  have horgFalse : ¬(cert.org.length = 0 ∨ cert.org.head? ≠ some certOrgName) := by
    rintro (h0 | hh)
    · cases ho : cert.org with
      | nil => rw [ho] at horg; exact absurd horg (by simp)
      | cons a tail => rw [ho] at h0; exact absurd h0 (by simp)
    · exact hh horg
  unfold getPrivateKey ykCertificate ykAttest ykAttestationCertificate pivVerify
  simp only [hopen, hcert, hkey, hdev]
  rw [if_neg horgFalse]
  simp only [if_true]
  rw [if_neg (not_not_intro hsup), if_pos hne]

/-- Witness for C3 amended, at the mismatched card. -/
theorem mismatch_fails_with_notFound_witness :
    getPrivateKey cardMismatch SlotAuthentication =
      .err (.notFound "YubiKey slot contains mismatched certificates and must be regenerated") :=
  mismatch_fails_with_notFound cardMismatch markedCert5 ⟨.ec 6, .never, true⟩
    SlotAuthentication rfl rfl rfl rfl rfl rfl (by decide)

/-- Card obtained by provisioning the empty example card on slot 9a with
fresh key `ec 7`. -/
def cardEmptyProvisioned : CardState :=
  match generatePrivateKey cardEmpty SlotAuthentication .never 7 with
  | .ok (c, _) => c
  | .err _ => cardEmpty

/-- C4: generating a key (`generatePrivateKey`, which writes the key pair and
the marker certificate) and then immediately requesting a key for the same
token and touch requirement succeeds through the verification path
(`getPrivateKey`) returning a handle with the same public key, and the
repeated `GetOrGenerateYubiKeyPrivateKey` call performs zero `GenerateKey`
calls, zero `SetCertificate` calls, and leaves the world unchanged. -/
theorem generate_then_get_reuses
    (c c2 : CardState) (h : YubiKeyPrivateKey) (w : World) (rest : List CardState)
    (t : Bool) (freshId freshId2 : Nat)
    (hgen : generatePrivateKey c (resolveByTouchRequirement t).1
        (resolveByTouchRequirement t).2 freshId = .ok (c2, h))
    (hcards : findYubiKeyCards w = c2 :: rest) :
    h.pub = .ec freshId ∧
    getPrivateKey c2 (resolveByTouchRequirement t).1 = .ok h ∧
    (GetOrGenerateYubiKeyPrivateKey w t freshId2).result = .ok h ∧
    (GetOrGenerateYubiKeyPrivateKey w t freshId2).generateKeyCalls = 0 ∧
    (GetOrGenerateYubiKeyPrivateKey w t freshId2).setCertificateCalls = 0 ∧
    (GetOrGenerateYubiKeyPrivateKey w t freshId2).world = w := by
  unfold generatePrivateKey at hgen
  cases hopen : c.openErr with
  | some msg => rw [hopen] at hgen; exact absurd hgen (by simp)
  | none =>
    rw [hopen] at hgen
    injection hgen with hgen'
    have hc2 : c2 = _ := (congrArg Prod.fst hgen').symm
    have hh : h = ⟨⟨c.name, c.serial⟩, (resolveByTouchRequirement t).1, .ec freshId⟩ :=
      (congrArg Prod.snd hgen').symm
    have hopen2 : c2.openErr = none := by rw [hc2]
    have hget : getPrivateKey c2 (resolveByTouchRequirement t).1 = .ok h := by
      rw [hc2, hh]
      simp [getPrivateKey, ykCertificate, ykAttest, ykAttestationCertificate, pivVerify,
        selfSignedTeleportClientCertificate, certOrgName, supportsEqual, hopen]
    have hfind := findYubiKey_first w c2 rest hcards hopen2
    have hout : GetOrGenerateYubiKeyPrivateKey w t freshId2 = ⟨w, .ok h, 0, 0⟩ := by
      unfold GetOrGenerateYubiKeyPrivateKey
      simp only [hfind, hget]
    refine ⟨by rw [hh], hget, ?_, ?_, ?_, ?_⟩ <;> rw [hout]

/-- Witness for C4 at the empty example card provisioned with `ec 7`. -/
theorem generate_then_get_reuses_witness :
    getPrivateKey cardEmptyProvisioned SlotAuthentication =
      .ok ⟨⟨"yubikey", 111⟩, SlotAuthentication, .ec 7⟩ ∧
    (GetOrGenerateYubiKeyPrivateKey ⟨[cardEmptyProvisioned]⟩ false 8).result =
      .ok ⟨⟨"yubikey", 111⟩, SlotAuthentication, .ec 7⟩ ∧
    (GetOrGenerateYubiKeyPrivateKey ⟨[cardEmptyProvisioned]⟩ false 8).generateKeyCalls = 0 ∧
    (GetOrGenerateYubiKeyPrivateKey ⟨[cardEmptyProvisioned]⟩ false 8).setCertificateCalls = 0 := by
  have happ := generate_then_get_reuses cardEmpty cardEmptyProvisioned
    ⟨⟨"yubikey", 111⟩, SlotAuthentication, .ec 7⟩ ⟨[cardEmptyProvisioned]⟩ [] false 7 8 rfl rfl
  exact ⟨happ.2.1, happ.2.2.1, happ.2.2.2.1, happ.2.2.2.2.1⟩

/-- C5 counterexample: decoding a descriptor whose `serial_number` field is 0
succeeds and attaches to the first enumerated token — here one with serial
number 111, different from the descriptor's 0 — so decoding does not, for
every `serial_number` value, attach only to a token with exactly that serial
number. -/
theorem parse_serial_zero_wildcard_cex :
    parseYubiKeyPrivateKeyData worldTwo (.wellFormed ⟨0, 0x9a⟩) =
      .ok ⟨⟨"yubikey", 111⟩, SlotAuthentication, .ec 7⟩ ∧
    (111 : Nat) ≠ 0 := by
  exact ⟨rfl, by decide⟩

/-- C5 amended: for every descriptor with a nonzero `serial_number`, decoding
(`parseYubiKeyPrivateKeyData`) either attaches to exactly the token whose
serial number equals the descriptor's `serial_number` and the slot identified
by `slot_key`, or fails; a `serial_number` of 0, however, acts as a wildcard
attaching to the first enumerated token. -/
theorem parse_attaches_matching_serial
    (w : World) (d : yubiKeyPrivateKeyData) (r : YubiKeyPrivateKey)
    (hs : d.serialNumber ≠ 0)
    (h : parseYubiKeyPrivateKeyData w (.wellFormed d) = .ok r) :
    r.yubiKey.serialNumber = d.serialNumber ∧ r.pivSlot.key = d.slotKey := by
  unfold parseYubiKeyPrivateKeyData jsonUnmarshal at h
  simp only at h
  cases hps : parsePIVSlot d.slotKey with
  | err e => rw [hps] at h; exact absurd h (by simp)
  | ok pivSlot =>
    rw [hps] at h
    simp only at h
    cases hf : findYubiKey w d.serialNumber with
    | err e => rw [hf] at h; exact absurd h (by simp)
    | ok y =>
      rw [hf] at h
      simp only at h
      obtain ⟨href, hslot⟩ := getPrivateKey_ok_shape y pivSlot r h
      have hser := findYubiKey_serial w d.serialNumber y hs hf
      have hkey := parsePIVSlot_key d.slotKey pivSlot hps
      constructor
      · rw [href]
        exact hser
      · rw [hslot]
        exact hkey

/-- Witness for C5 amended: decoding the descriptor (222, 9a) against the
two-card world attaches to the card with serial number 222. -/
theorem parse_attaches_matching_serial_witness :
    (⟨⟨"yubikey b", 222⟩, SlotAuthentication, CryptoPub.ec 8⟩ : YubiKeyPrivateKey).yubiKey.serialNumber
      = (⟨222, 0x9a⟩ : yubiKeyPrivateKeyData).serialNumber ∧
    (⟨⟨"yubikey b", 222⟩, SlotAuthentication, CryptoPub.ec 8⟩ : YubiKeyPrivateKey).pivSlot.key
      = (⟨222, 0x9a⟩ : yubiKeyPrivateKeyData).slotKey :=
  parse_attaches_matching_serial worldTwo ⟨222, 0x9a⟩
    ⟨⟨"yubikey b", 222⟩, SlotAuthentication, .ec 8⟩ (by decide) rfl

/-- C7: serializing a key handle (`keyPEM`) and then unmarshalling the
descriptor reproduces the exact (`serial_number`, `slot_key`) pair of the
original handle; decoding (`parseYubiKeyPrivateKeyData`) fails on malformed
bytes, and fails with `BadParameter` on a well-formed descriptor whose
`slot_key` lies outside the recognized slot enumeration. -/
theorem keyPEM_roundtrip
    (y : YubiKeyPrivateKey) (w : World) (raw : String) (d : yubiKeyPrivateKeyData)
    (hd : ∀ s ∈ pivSlots, s.key ≠ d.slotKey) :
    jsonUnmarshal (keyPEM y).bytes = .ok ⟨y.yubiKey.serialNumber, y.pivSlot.key⟩ ∧
    parseYubiKeyPrivateKeyData w (.malformed raw) =
      .err (.device ("invalid JSON input: " ++ raw)) ∧
    parseYubiKeyPrivateKeyData w (.wellFormed d) =
      .err (.badParameter ("slot " ++ toString d.slotKey ++ " does not exist")) := by
  refine ⟨rfl, rfl, ?_⟩
  unfold parseYubiKeyPrivateKeyData jsonUnmarshal
  simp only [parsePIVSlot_invalid d.slotKey hd]

/-- Witness for C7 at the handle (111, slot 9a), a malformed input, and the
out-of-range descriptor (1, 0x40). -/
theorem keyPEM_roundtrip_witness :
    jsonUnmarshal (keyPEM ⟨⟨"yubikey", 111⟩, SlotAuthentication, .ec 7⟩).bytes =
      .ok ⟨111, 0x9a⟩ ∧
    parseYubiKeyPrivateKeyData worldTwo (.malformed "garbage") =
      .err (.device ("invalid JSON input: " ++ "garbage")) ∧
    parseYubiKeyPrivateKeyData worldTwo (.wellFormed ⟨1, 0x40⟩) =
      .err (.badParameter ("slot " ++ toString (0x40 : Nat) ++ " does not exist")) :=
  keyPEM_roundtrip ⟨⟨"yubikey", 111⟩, SlotAuthentication, .ec 7⟩ worldTwo "garbage"
    ⟨1, 0x40⟩ (by decide)

/-- C10: `GetOrGenerateYubiKeyPrivateKey` always operates on the first
enumerated yubiKey: it calls `findYubiKey` with serial number 0, which
returns the first matching card, and any handle it returns references that
first card's reader name and serial number. -/
theorem getOrGenerate_uses_first_card
    (w : World) (c : CardState) (rest : List CardState)
    (hcards : findYubiKeyCards w = c :: rest) (hopen : c.openErr = none) :
    findYubiKey w 0 = .ok c ∧
    ∀ t freshId r, (GetOrGenerateYubiKeyPrivateKey w t freshId).result = .ok r →
      r.yubiKey = ⟨c.name, c.serial⟩ := by
  have hfind := findYubiKey_first w c rest hcards hopen
  refine ⟨hfind, ?_⟩
  intro t freshId r hr
  unfold GetOrGenerateYubiKeyPrivateKey at hr
  simp only [hfind] at hr
  cases hg : getPrivateKey c (resolveByTouchRequirement t).1 with
  | ok priv =>
    rw [hg] at hr
    simp only at hr
    injection hr with hr'
    rw [← hr']
    exact (getPrivateKey_ok_shape c (resolveByTouchRequirement t).1 priv hg).1
  | err e =>
    rw [hg] at hr
    simp only at hr
    unfold generatePrivateKey at hr
    rw [hopen] at hr
    simp only at hr
    injection hr with hr'
    rw [← hr']

/-- Witness for C10 at the two-card world: the serial-111 card is used. -/
theorem getOrGenerate_uses_first_card_witness :
    findYubiKey worldTwo 0 = .ok (goodCard "yubikey" 111 7) ∧
    (⟨⟨"yubikey", 111⟩, SlotAuthentication, CryptoPub.ec 7⟩ : YubiKeyPrivateKey).yubiKey =
      ⟨"yubikey", 111⟩ := by
  have happ := getOrGenerate_uses_first_card worldTwo (goodCard "yubikey" 111 7)
    [goodCard "yubikey b" 222 8] rfl rfl
  exact ⟨happ.1, happ.2 false 5 ⟨⟨"yubikey", 111⟩, SlotAuthentication, .ec 7⟩ rfl⟩

/-- Helper: one-step equation of the retry loop when the current attempt
succeeds. -/
theorem openConnectionAux_none (attempts : Nat → Option String) (i rem : Nat)
    (h : attempts i = none) :
    openConnectionAux attempts i rem = ⟨.ok (), 1, 0⟩ := by
  conv_lhs => rw [openConnectionAux]
  rw [h]

/-- Helper: one-step equation of the retry loop when the current attempt
fails with a non-retryable message. -/
theorem openConnectionAux_nonretry (attempts : Nat → Option String) (i rem : Nat)
    (msg : String) (h : attempts i = some msg) (hr : isRetryError msg = false) :
    openConnectionAux attempts i rem = ⟨.err (.device msg), 1, 0⟩ := by
  conv_lhs => rw [openConnectionAux]
  rw [h]
  simp [hr]

/-- Helper: one-step equation of the retry loop when the last allowed attempt
fails with a retryable message: the loop sleeps once more, exits, and returns
that error. -/
theorem openConnectionAux_retry_last (attempts : Nat → Option String) (i : Nat)
    (msg : String) (h : attempts i = some msg) (hr : isRetryError msg = true) :
    openConnectionAux attempts i 0 = ⟨.err (.device msg), 1, 1⟩ := by
  conv_lhs => rw [openConnectionAux]
  rw [h]
  simp [hr]

/-- Helper: one-step equation of the retry loop when a non-final attempt
fails with a retryable message: sleep and continue with the next attempt. -/
theorem openConnectionAux_retry_step (attempts : Nat → Option String) (i rem : Nat)
    (msg : String) (h : attempts i = some msg) (hr : isRetryError msg = true) :
    openConnectionAux attempts i (rem + 1) =
      ⟨(openConnectionAux attempts (i + 1) rem).result,
        (openConnectionAux attempts (i + 1) rem).attemptsMade + 1,
        (openConnectionAux attempts (i + 1) rem).sleeps + 1⟩ := by
  conv_lhs => rw [openConnectionAux]
  rw [h]
  simp [hr]

/-- Helper: the retry loop makes at most `rem + 1` open attempts. -/
theorem openConnectionAux_attempts_le (attempts : Nat → Option String) (rem i : Nat) :
    (openConnectionAux attempts i rem).attemptsMade ≤ rem + 1 := by
  induction rem generalizing i with
  | zero =>
    cases h : attempts i with
    | none => rw [openConnectionAux_none attempts i 0 h]
    | some msg =>
      by_cases hr : isRetryError msg = true
      · rw [openConnectionAux_retry_last attempts i msg h hr]
      · rw [openConnectionAux_nonretry attempts i 0 msg h (by simpa using hr)]
  | succ rem ih =>
    cases h : attempts i with
    | none =>
      rw [openConnectionAux_none attempts i (rem + 1) h]
      exact Nat.le_add_left 1 (rem + 1)
    | some msg =>
      by_cases hr : isRetryError msg = true
      · rw [openConnectionAux_retry_step attempts i rem msg h hr]
        exact Nat.add_le_add_right (ih (i + 1)) 1
      · rw [openConnectionAux_nonretry attempts i (rem + 1) msg h (by simpa using hr)]
        exact Nat.le_add_left 1 (rem + 1)

/-- Helper: when every allowed attempt fails with a retryable error, the loop
exhausts all `rem + 1` attempts (sleeping after each) and returns the last
attempt's error. -/
theorem openConnectionAux_all_retry (attempts : Nat → Option String) (rem : Nat) :
    ∀ i mlast, (∀ j, j ≤ rem → ∃ m, attempts (i + j) = some m ∧ isRetryError m = true) →
    attempts (i + rem) = some mlast →
    openConnectionAux attempts i rem = ⟨.err (.device mlast), rem + 1, rem + 1⟩ := by
  induction rem with
  | zero =>
    intro i mlast hall hlast
    rw [Nat.add_zero] at hlast
    obtain ⟨m, hm, hr⟩ := hall 0 (Nat.le_refl 0)
    rw [Nat.add_zero] at hm
    rw [hm] at hlast
    injection hlast with hml
    rw [← hml]
    exact openConnectionAux_retry_last attempts i m hm hr
  | succ rem ih =>
    intro i mlast hall hlast
    obtain ⟨m, hm, hr⟩ := hall 0 (Nat.zero_le _)
    rw [Nat.add_zero] at hm
    have hall' : ∀ j, j ≤ rem → ∃ m2, attempts (i + 1 + j) = some m2 ∧ isRetryError m2 = true := by
      intro j hj
      have := hall (j + 1) (by omega)
      rwa [show i + (j + 1) = i + 1 + j by omega] at this
    have hlast' : attempts (i + 1 + rem) = some mlast := by
      rwa [show i + 1 + rem = i + (rem + 1) by omega]
    have hrec := ih (i + 1) mlast hall' hlast'
    rw [openConnectionAux_retry_step attempts i rem m hm hr, hrec]

/-- Helper: a non-matching failure is returned immediately at whatever
position it occurs: after any prefix of `k` retryable failures (each followed
by one sleep), a failure at attempt `k` whose message does not match the
retry pattern ends the loop at once with `k + 1` attempts and `k` sleeps. -/
theorem openConnectionAux_nonretry_after_busy (attempts : Nat → Option String) (k : Nat) :
    ∀ i rem msg, k ≤ rem →
    (∀ j, j < k → ∃ m, attempts (i + j) = some m ∧ isRetryError m = true) →
    attempts (i + k) = some msg → isRetryError msg = false →
    openConnectionAux attempts i rem = ⟨.err (.device msg), k + 1, k⟩ := by
  induction k with
  | zero =>
    intro i rem msg hk hpre hmsg hnr
    rw [Nat.add_zero] at hmsg
    exact openConnectionAux_nonretry attempts i rem msg hmsg hnr
  | succ k ih =>
    intro i rem msg hk hpre hmsg hnr
    obtain ⟨m, hm, hr⟩ := hpre 0 (Nat.succ_pos k)
    rw [Nat.add_zero] at hm
    cases rem with
    | zero => exact absurd hk (by omega)
    | succ rem' =>
      have hpre' : ∀ j, j < k → ∃ m2, attempts (i + 1 + j) = some m2 ∧ isRetryError m2 = true := by
        intro j hj
        have := hpre (j + 1) (by omega)
        rwa [show i + (j + 1) = i + 1 + j by omega] at this
      have hmsg' : attempts (i + 1 + k) = some msg := by
        rwa [show i + 1 + k = i + (k + 1) by omega]
      have hrec := ih (i + 1) rem' msg (by omega) hpre' hmsg' hnr
      rw [openConnectionAux_retry_step attempts i rem' m hm hr, hrec]

/-- C8: the card session's `open` retries at most `maxRetries` (= 100)
attempts with a sleep of `retryDelayMilliseconds` (= 100) between attempts,
and retries only when the failure message contains the exclusively-held
pattern: a failure not matching the pattern at any attempt `k` — even after a
prefix of `k` matching (retryable) failures — is returned immediately with no
further attempts (`k + 1` attempts, `k` sleeps), and when all 100 attempts
fail with matching errors the loop performs 100 attempts and 100 sleeps and
returns the last (100th) attempt's error. -/
theorem openConnection_retry_policy (attempts : Nat → Option String) :
    (openConnection attempts).attemptsMade ≤ maxRetries ∧
    retryDelayMilliseconds = 100 ∧
    (∀ k msg, k < maxRetries →
      (∀ j, j < k → ∃ m, attempts j = some m ∧ isRetryError m = true) →
      attempts k = some msg → isRetryError msg = false →
      openConnection attempts = ⟨.err (.device msg), k + 1, k⟩) ∧
    (∀ mlast, (∀ j, j < maxRetries → ∃ m, attempts j = some m ∧ isRetryError m = true) →
      attempts (maxRetries - 1) = some mlast →
      openConnection attempts = ⟨.err (.device mlast), maxRetries, maxRetries⟩) := by
  refine ⟨openConnectionAux_attempts_le attempts 99 0, rfl, ?_, ?_⟩
  · intro k msg hk hpre hmsg hnr
    have hk' : k ≤ 99 := by
      simp only [maxRetries] at hk
      omega
    have hpre' : ∀ j, j < k → ∃ m, attempts (0 + j) = some m ∧ isRetryError m = true := by
      intro j hj
      rw [Nat.zero_add]
      exact hpre j hj
    have hmsg' : attempts (0 + k) = some msg := by rw [Nat.zero_add]; exact hmsg
    exact openConnectionAux_nonretry_after_busy attempts k 0 99 msg hk' hpre' hmsg' hnr
  · intro mlast hall hlast
    have hall' : ∀ j, j ≤ 99 → ∃ m, attempts (0 + j) = some m ∧ isRetryError m = true := by
      intro j hj
      rw [Nat.zero_add]
      exact hall j (show j < 100 by omega)
    have hlast' : attempts (0 + 99) = some mlast := by rw [Nat.zero_add]; exact hlast
    exact openConnectionAux_all_retry attempts 99 0 mlast hall' hlast'

/-- Attempt oracle that reports the device as exclusively held for the first
three attempts and then fails with an unrelated message. -/
def exampleBusyAttempts : Nat → Option String :=
  fun i => if i < 3 then some retryErrorText else some "card error"

/-- Witness for C8: an oracle that always fails with the retryable pattern
exhausts all 100 attempts and sleeps; one that fails with an unrelated
message at the first attempt returns at once with no sleep; and one that is
busy for three attempts and then fails with an unrelated message returns
immediately at the fourth attempt, with three sleeps and no further
attempts. -/
theorem openConnection_retry_policy_witness :
    openConnection (fun _ => some retryErrorText) =
      ⟨.err (.device retryErrorText), 100, 100⟩ ∧
    openConnection (fun _ => some "card error") = ⟨.err (.device "card error"), 1, 0⟩ ∧
    openConnection exampleBusyAttempts = ⟨.err (.device "card error"), 4, 3⟩ := by
  refine ⟨?_, ?_, ?_⟩
  · exact (openConnection_retry_policy (fun _ => some retryErrorText)).2.2.2 retryErrorText
      (fun j hj => ⟨retryErrorText, rfl, by decide⟩) rfl
  · exact (openConnection_retry_policy (fun _ => some "card error")).2.2.1 0 "card error"
      (by decide) (fun j hj => absurd hj (Nat.not_lt_zero j)) rfl (by decide)
  · exact (openConnection_retry_policy exampleBusyAttempts).2.2.1 3 "card error"
      (by decide) (fun j hj => ⟨retryErrorText, by simp [exampleBusyAttempts, hj], by decide⟩)
      (by simp [exampleBusyAttempts]) (by decide)

end Teleport
